import Mathlib

/-!
Verification of the Maya Notepad tool (src/main.py) against its
natural-language specification.

The program is event-wiring glue between the Maya GUI toolkit and the
filesystem.  We embed its observable state shallowly:

* the scroll-field text (`buffer`, widget `_scrollFld`),
* the file-name label (`fName`, widget `_fName`),
* the character-count label (`charCount`, widget `_charCount`),
* the Save menu item's enabled flag (`saveEnabled`, widget `_save_menu`),
* the global dirty flag (`isModified`),
* the filesystem, as an association list from path to file content,
* a ghost counter `confirms` counting how many times the unsaved-changes
  confirmation dialog (`mc.confirmDialog` inside `confirm_warning`) has
  been displayed.

User interaction with dialogs is modelled as oracle arguments: the button
chosen in the confirmation dialog (`ConfirmChoice`) and the path returned
by `mc.fileDialog2` (`Option String`, `none` = dialog cancelled).
Python file reads that may raise (opening a missing file) are modelled
with `Option`.
-/

namespace MayaNotepad

/-- Lookup in the association-list filesystem; `none` means
`os.path.exists` is false / `open(path)` would raise. -/
def fsLookup : List (String × String) → String → Option String
  | [], _ => none
  | (q, c) :: rest, p => if q = p then some c else fsLookup rest p

/-- Writing a file: `open(path, "w"); f.write(content)` replaces the
content at `path`, creating the file if absent. -/
def fsWrite : List (String × String) → String → String → List (String × String)
  | [], p, c => [(p, c)]
  | (q, d) :: rest, p, c =>
      if q = p then (p, c) :: rest else (q, d) :: fsWrite rest p c

/-- Observable state of the notepad window plus the filesystem. -/
structure St where
  buffer : String
  fName : String
  charCount : String
  saveEnabled : Bool
  isModified : Bool
  fs : List (String × String)
  confirms : Nat
deriving Repr, DecidableEq

/-- The three buttons of the confirmation dialog in `confirm_warning`
(`button=['Save', 'Yes', 'Cancel']`; dismissing counts as `Cancel`). -/
inductive ConfirmChoice
  | save | yes | cancel
deriving Repr, DecidableEq

/-- The `current_file_data` computed in `update_character_count`
(src/main.py lines 65-70): empty unless the `_fName` label is not
`"File: Not saved"` and the named file (label minus the 6-character
`"File: "` marker) exists, in which case it is that file's content. -/
def current_file_data (s : St) : String :=
  match fsLookup s.fs (s.fName.drop 6) with
  | some c => if s.fName = "File: Not saved" then "" else c
  | none => ""

/-- `update_character_count` (src/main.py lines 58-73): the idle-time
callback.  Rewrites the `_charCount` label from the buffer length and
sets `isModified` to `True` when the buffer differs from
`current_file_data`; it never clears `isModified`. -/
def update_character_count (s : St) : St :=
  let count := s.buffer.length
  let s1 : St := { s with charCount := " | Characters: " ++ toString count }
  if s.buffer ≠ current_file_data s then { s1 with isModified := true } else s1

/-- `save_as_file` (src/main.py lines 113-123): shows a save dialog
(`dialogResult` oracle); on a chosen path writes the buffer there,
relabels `_fName`, enables the Save menu item and clears `isModified`;
on cancel does nothing. -/
def save_as_file (s : St) (dialogResult : Option String) : St :=
  match dialogResult with
  | none => s
  | some p =>
      { s with
        fs := fsWrite s.fs p s.buffer
        fName := "File: " ++ p
        saveEnabled := true
        isModified := false }

/-- `confirm_warning` (src/main.py lines 75-91): displays the
confirmation dialog (counted in `confirms`); on `Save` runs
`save_as_file` (with its own dialog oracle `saveAsPath`); returns the
chosen button in every case. -/
def confirm_warning (s : St) (choice : ConfirmChoice)
    (saveAsPath : Option String) : St × ConfirmChoice :=
  let s0 : St := { s with confirms := s.confirms + 1 }
  match choice with
  | .save => (save_as_file s0 saveAsPath, .save)
  | .yes => (s0, .yes)
  | .cancel => (s0, .cancel)

/-- `test_save_requirement` (src/main.py lines 93-111): decides whether
to show the confirmation dialog.  Returns the dialog's result
(`some choice`) when it was shown, `none` otherwise (Python's implicit
`None`). -/
def test_save_requirement (s : St) (choice : ConfirmChoice)
    (saveAsPath : Option String) : St × Option ConfirmChoice :=
  let live_data := s.buffer
  let file_name := s.fName.drop 6
  let confirmed : St × Option ConfirmChoice :=
    let r := confirm_warning s choice saveAsPath
    (r.1, some r.2)
  let fallthrough : St × Option ConfirmChoice :=
    if s.isModified = true ∧ live_data ≠ "" then confirmed else (s, none)
  if s.fName = "File: Not saved" then
    if live_data ≠ "" then confirmed else fallthrough
  else
    match fsLookup s.fs file_name with
    | none => confirmed
    | some data => if live_data ≠ data then confirmed else fallthrough

/-- `save_file` (src/main.py lines 125-140): on a never-saved buffer
delegates to `save_as_file`; otherwise writes the buffer to the file
named by the `_fName` label and clears `isModified`.  It never calls
`test_save_requirement` or `confirm_warning`. -/
def save_file (s : St) (saveAsPath : Option String) : St :=
  let file_name := s.fName.drop 6
  if s.fName = "File: Not saved" then save_as_file s saveAsPath
  else { s with fs := fsWrite s.fs file_name s.buffer, isModified := false }

/-- `open_file` (src/main.py lines 142-151): runs
`test_save_requirement` ignoring its result, then shows the open dialog
(`openPath` oracle); on a chosen path reads the file (`none` if the read
raises), replaces the buffer, relabels `_fName` and enables Save.
`isModified` is not touched. -/
def open_file (s : St) (choice : ConfirmChoice) (saveAsPath : Option String)
    (openPath : Option String) : Option St :=
  let s0 := (test_save_requirement s choice saveAsPath).1
  match openPath with
  | none => some s0
  | some p =>
      match fsLookup s0.fs p with
      | none => none
      | some data =>
          some { s0 with
                 buffer := data
                 fName := "File: " ++ p
                 saveEnabled := true }

/-- `new_file` (src/main.py lines 153-161): runs
`test_save_requirement`; aborts if it returned `"Cancel"`; otherwise
clears the buffer, resets the `_fName` label, disables Save and clears
`isModified`. -/
def new_file (s : St) (choice : ConfirmChoice)
    (saveAsPath : Option String) : St :=
  let r := test_save_requirement s choice saveAsPath
  if r.2 = some ConfirmChoice.cancel then r.1
  else { r.1 with
         buffer := ""
         fName := "File: Not saved"
         saveEnabled := false
         isModified := false }

/-- `launch_calc` (src/main.py lines 166-167): the argument list passed
to `subprocess.run`, independent of the state. -/
def launch_calc (_ : St) : List String := ["calc"]

/-- `launch_CMD` (src/main.py lines 169-170): the argument list passed
to `subprocess.run`, independent of the state. -/
def launch_CMD (_ : St) : List String := ["cmd"]

/-- The spec's notion of "unsaved changes": the buffer differs from the
on-disk content of the current file, or the buffer is non-empty and no
file has ever been saved.  Stated from the spec's words, to be compared
with the code's guard. -/
def specUnsavedChanges (s : St) : Bool :=
  if s.fName = "File: Not saved" then s.buffer ≠ ""
  else s.buffer ≠ (fsLookup s.fs (s.fName.drop 6)).getD ""


/-! ### Concrete states used to exercise the theorems -/

/-- A state with unsaved changes: the buffer differs from the saved
file's content. -/
def c1DirtySt : St :=
  { buffer := "new text", fName := "File: a.txt", charCount := "",
    saveEnabled := true, isModified := true,
    fs := [("a.txt", "old text")], confirms := 0 }

/-- A never-saved state with an empty buffer whose dirty flag is
(stale) `true`. -/
def c2CleanSt : St :=
  { buffer := "", fName := "File: Not saved", charCount := "",
    saveEnabled := false, isModified := true, fs := [], confirms := 0 }

/-- A dirty state with a second file on disk available to open. -/
def c3St : St :=
  { buffer := "edited", fName := "File: a.txt", charCount := "",
    saveEnabled := true, isModified := true,
    fs := [("a.txt", "saved"), ("b.txt", "other")], confirms := 0 }

/-- A state whose label names a previously saved file. -/
def c5SavedSt : St :=
  { buffer := "fresh", fName := "File: doc.txt", charCount := "",
    saveEnabled := true, isModified := true,
    fs := [("doc.txt", "stale")], confirms := 0 }

/-- A never-saved state. -/
def c5UnsavedSt : St :=
  { buffer := "draft", fName := "File: Not saved", charCount := "",
    saveEnabled := false, isModified := true, fs := [], confirms := 0 }

/-- A clean state with a file on disk available to open. -/
def c6St : St :=
  { buffer := "", fName := "File: Not saved", charCount := "",
    saveEnabled := false, isModified := false,
    fs := [("notes.txt", "hello")], confirms := 0 }

/-- A never-saved state with a non-empty buffer. -/
def c7St : St :=
  { buffer := "typed", fName := "File: Not saved", charCount := "",
    saveEnabled := false, isModified := true, fs := [], confirms := 0 }

/-- A state whose buffer matches the saved file but whose dirty flag is
still `true`. -/
def c10St : St :=
  { buffer := "abc", fName := "File: log.txt", charCount := "",
    saveEnabled := true, isModified := true,
    fs := [("log.txt", "abc")], confirms := 0 }


/-! ### Helper lemmas -/

/-- Writing a file then looking it up yields the written content. -/
theorem fsLookup_fsWrite (l : List (String × String)) (p c : String) :
    fsLookup (fsWrite l p c) p = some c := by
  induction l with
  | nil => simp [fsWrite, fsLookup]
  | cons hd tl ih =>
      obtain ⟨q, d⟩ := hd
      by_cases h : q = p
      · simp [fsWrite, h, fsLookup]
      · simp [fsWrite, h, fsLookup, ih]

/-- Every run of `confirm_warning` displays the dialog exactly once. -/
theorem confirm_warning_confirms (s : St) (choice : ConfirmChoice)
    (sp : Option String) :
    ((confirm_warning s choice sp).1).confirms = s.confirms + 1 := by
  cases choice <;> cases sp <;> rfl

theorem tsr_shows_dialog (s : St) (choice : ConfirmChoice) (sp : Option String)
    (h : specUnsavedChanges s = true) :
    s.confirms < ((test_save_requirement s choice sp).1).confirms := by
  unfold specUnsavedChanges at h
  unfold test_save_requirement
  simp only []
  by_cases hn : s.fName = "File: Not saved"
  · rw [if_pos hn] at h ⊢
    simp only [decide_eq_true_eq] at h
    rw [if_pos h]
    simp [confirm_warning_confirms]
  · rw [if_neg hn] at h ⊢
    simp only [decide_eq_true_eq] at h
    split
    · simp [confirm_warning_confirms]
    · rename_i data hfs
      rw [hfs, Option.getD_some] at h
      rw [if_pos h]
      simp [confirm_warning_confirms]

/-- On a state with unsaved changes, answering `Cancel` makes
`test_save_requirement` return `"Cancel"` and leave everything but the
dialog counter unchanged. -/
theorem tsr_cancel_of_dirty (s : St) (sp : Option String)
    (h : specUnsavedChanges s = true) :
    test_save_requirement s ConfirmChoice.cancel sp =
      ({ s with confirms := s.confirms + 1 }, some ConfirmChoice.cancel) := by
  unfold specUnsavedChanges at h
  unfold test_save_requirement
  simp only []
  by_cases hn : s.fName = "File: Not saved"
  · rw [if_pos hn] at h ⊢
    simp only [decide_eq_true_eq] at h
    rw [if_pos h]
    rfl
  · rw [if_neg hn] at h ⊢
    simp only [decide_eq_true_eq] at h
    split
    · rfl
    · rename_i data hfs
      rw [hfs, Option.getD_some] at h
      rw [if_pos h]
      rfl

/-- The confirmation dialog returns the button the user chose. -/
theorem confirm_warning_snd (s : St) (choice : ConfirmChoice)
    (sp : Option String) :
    (confirm_warning s choice sp).2 = choice := by
  cases choice <;> rfl

/-- `test_save_requirement` either shows no dialog and leaves the state
alone, or shows the dialog once and reports the chosen button. -/
theorem tsr_cases (s : St) (choice : ConfirmChoice) (sp : Option String) :
    test_save_requirement s choice sp = (s, none) ∨
    test_save_requirement s choice sp =
      ((confirm_warning s choice sp).1, some choice) := by
  unfold test_save_requirement
  simp only [confirm_warning_snd]
  split
  · split
    · right; rfl
    · split
      · right; rfl
      · left; rfl
  · split
    · right; rfl
    · split
      · right; rfl
      · split
        · right; rfl
        · left; rfl

/-- Whenever `test_save_requirement` reports `"Cancel"`, the user chose
`Cancel`, so only the dialog counter changed. -/
theorem tsr_state_of_cancel (s : St) (choice : ConfirmChoice)
    (sp : Option String)
    (h : (test_save_requirement s choice sp).2 = some ConfirmChoice.cancel) :
    (test_save_requirement s choice sp).1 =
      { s with confirms := s.confirms + 1 } := by
  rcases tsr_cases s choice sp with heq | heq
  · rw [heq] at h
    simp at h
  · rw [heq] at h ⊢
    simp only [Option.some.injEq] at h
    subst h
    rfl


/-- `save_as_file` never displays the confirmation dialog. -/
theorem save_as_file_confirms (s : St) (sp : Option String) :
    (save_as_file s sp).confirms = s.confirms := by
  cases sp <;> rfl

/-- `save_file` never displays the confirmation dialog. -/
theorem save_file_confirms (s : St) (sp : Option String) :
    (save_file s sp).confirms = s.confirms := by
  unfold save_file
  simp only []
  split
  · exact save_as_file_confirms s sp
  · rfl

/-- `new_file` displays exactly the dialogs `test_save_requirement`
displays. -/
theorem new_file_confirms (s : St) (choice : ConfirmChoice)
    (sp : Option String) :
    (new_file s choice sp).confirms =
      ((test_save_requirement s choice sp).1).confirms := by
  unfold new_file
  simp only []
  split <;> rfl

/-- `open_file` displays exactly the dialogs `test_save_requirement`
displays. -/
theorem open_file_confirms (s : St) (choice : ConfirmChoice)
    (sp op : Option String) (s2 : St)
    (h : open_file s choice sp op = some s2) :
    s2.confirms = ((test_save_requirement s choice sp).1).confirms := by
  cases op with
  | none =>
      unfold open_file at h
      simp only [Option.some.injEq] at h
      subst h
      rfl
  | some p =>
      unfold open_file at h
      simp only [] at h
      split at h
      · exact absurd h (by simp)
      · simp only [Option.some.injEq] at h
        subst h
        rfl

/-! ### Claim theorems -/

/-- C1 counterexample: `c1DirtySt` has unsaved changes, yet `save_file`
and `save_as_file` run on it without ever displaying the unsaved-changes
confirmation dialog, contradicting the claim that all four filesystem
operations are guarded by it. -/
theorem C1_counterexample :
    specUnsavedChanges c1DirtySt = true ∧
    (save_file c1DirtySt none).confirms = c1DirtySt.confirms ∧
    (save_as_file c1DirtySt (some "b.txt")).confirms = c1DirtySt.confirms := by
  decide

/-- C1 (amended): only the new and open operations are guarded by the
unsaved-changes confirmation dialog.  On every state with unsaved
changes, `new_file` and `open_file` display the dialog before taking
effect; `save_file` and `save_as_file` never display it on any state. -/
theorem C1_guarded_operations (s : St) (choice : ConfirmChoice)
    (sp op : Option String) (h : specUnsavedChanges s = true) :
    s.confirms < (new_file s choice sp).confirms ∧
    (∀ s2 : St, open_file s choice sp op = some s2 →
      s.confirms < s2.confirms) ∧
    (∀ t : St, ∀ q : Option String,
      (save_file t q).confirms = t.confirms ∧
      (save_as_file t q).confirms = t.confirms) := by
  refine ⟨?_, ?_, ?_⟩
  · rw [new_file_confirms]
    exact tsr_shows_dialog s choice sp h
  · intro s2 h2
    rw [open_file_confirms s choice sp op s2 h2]
    exact tsr_shows_dialog s choice sp h
  · intro t q
    exact ⟨save_file_confirms t q, save_as_file_confirms t q⟩

/-- C1 witness: the amended guarantee evaluated on `c1DirtySt`. -/
theorem C1_guarded_operations_witness :
    specUnsavedChanges c1DirtySt = true ∧
    c1DirtySt.confirms <
      (new_file c1DirtySt ConfirmChoice.yes none).confirms :=
  ⟨by decide,
   (C1_guarded_operations c1DirtySt ConfirmChoice.yes none none
     (by decide)).1⟩

/-- C2 counterexample: on `c2CleanSt` the buffer equals the on-disk
content (empty, since no file was ever saved), yet after the idle
callback `isModified` is still `true`: the claimed "if and only if"
fails in the only-if direction. -/
theorem C2_counterexample :
    c2CleanSt.fName = "File: Not saved" ∧
    c2CleanSt.buffer = current_file_data c2CleanSt ∧
    (update_character_count c2CleanSt).isModified = true := by
  decide

/-- C2 (amended): after every run of the idle callback, `isModified` is
`true` iff it was already `true` before the run or the buffer differs
from the on-disk content of the current file (taken as empty when no
file has been saved or the named file does not exist); the callback only
sets the flag, it never clears it. -/
theorem C2_dirty_flag (s : St) :
    (update_character_count s).isModified = true ↔
      (s.isModified = true ∨ s.buffer ≠ current_file_data s) := by
  unfold update_character_count
  simp only []
  by_cases h : s.buffer = current_file_data s
  · simp [h]
  · simp [h]

/-- C3: on a state with unsaved changes, answering Cancel in the
confirmation dialog does not abort `open_file`: the file dialog is still
consulted and a selected file's content replaces the buffer. -/
theorem C3_open_cancel_proceeds (s : St) (sp : Option String) (p c : String)
    (h : specUnsavedChanges s = true)
    (hp : fsLookup s.fs p = some c) :
    (test_save_requirement s ConfirmChoice.cancel sp).2 =
      some ConfirmChoice.cancel ∧
    ∃ s2 : St, open_file s ConfirmChoice.cancel sp (some p) = some s2 ∧
      s2.buffer = c ∧ s2.fName = "File: " ++ p ∧ s2.saveEnabled = true := by
  have ht := tsr_cancel_of_dirty s sp h
  constructor
  · rw [ht]
  · unfold open_file
    simp only [ht, hp]
    exact ⟨_, rfl, rfl, rfl, rfl⟩

/-- C3 witness: Cancel on the dirty state `c3St`, then opening
`b.txt`, still replaces the buffer with that file's content. -/
theorem C3_open_cancel_proceeds_witness :
    ∃ s2 : St,
      open_file c3St ConfirmChoice.cancel none (some "b.txt") = some s2 ∧
      s2.buffer = "other" ∧ s2.fName = "File: b.txt" ∧
      s2.saveEnabled = true :=
  (C3_open_cancel_proceeds c3St none "b.txt" "other"
    (by decide) (by decide)).2

/-- C4: after every run of the idle callback the character-count label
equals " | Characters: n" with n the length of the buffer. -/
theorem C4_char_count_label (s : St) :
    (update_character_count s).charCount =
      " | Characters: " ++ toString s.buffer.length := by
  unfold update_character_count
  simp only []
  split <;> rfl

/-- C5: when the file label names a previously saved file, `save_file`
writes the buffer to that file and clears `isModified`; on a never-saved
buffer it behaves exactly as `save_as_file`. -/
theorem C5_save_file (s : St) (sp : Option String) :
    (s.fName ≠ "File: Not saved" →
      fsLookup (save_file s sp).fs (s.fName.drop 6) = some s.buffer ∧
      (save_file s sp).isModified = false) ∧
    (s.fName = "File: Not saved" → save_file s sp = save_as_file s sp) := by
  constructor
  · intro h
    unfold save_file
    simp only []
    rw [if_neg h]
    exact ⟨fsLookup_fsWrite s.fs (s.fName.drop 6) s.buffer, rfl⟩
  · intro h
    unfold save_file
    simp only []
    rw [if_pos h]

/-- C5 witness: both branches of `save_file` on concrete states. -/
theorem C5_save_file_witness :
    fsLookup (save_file c5SavedSt none).fs "doc.txt" = some "fresh" ∧
    (save_file c5SavedSt none).isModified = false ∧
    save_file c5UnsavedSt (some "new.txt") =
      save_as_file c5UnsavedSt (some "new.txt") := by
  refine ⟨?_, ?_, ?_⟩
  · exact ((C5_save_file c5SavedSt none).1 (by decide)).1
  · exact ((C5_save_file c5SavedSt none).1 (by decide)).2
  · exact (C5_save_file c5UnsavedSt (some "new.txt")).2 (by decide)

/-- C6: when the open dialog returns a path whose file exists, after
`open_file` the buffer equals that file's content, the file label is
"File: " followed by the path, and the Save menu item is enabled. -/
theorem C6_open_file (s : St) (choice : ConfirmChoice) (sp : Option String)
    (p c : String)
    (h : fsLookup ((test_save_requirement s choice sp).1).fs p = some c) :
    ∃ s2 : St, open_file s choice sp (some p) = some s2 ∧
      s2.buffer = c ∧ s2.fName = "File: " ++ p ∧ s2.saveEnabled = true := by
  unfold open_file
  simp only [h]
  exact ⟨_, rfl, rfl, rfl, rfl⟩

/-- C6 witness: opening `notes.txt` from the clean state `c6St`. -/
theorem C6_open_file_witness :
    ∃ s2 : St,
      open_file c6St ConfirmChoice.yes none (some "notes.txt") = some s2 ∧
      s2.buffer = "hello" ∧ s2.fName = "File: notes.txt" ∧
      s2.saveEnabled = true :=
  C6_open_file c6St ConfirmChoice.yes none "notes.txt" "hello" (by decide)

/-- C7: when the confirmation returns Cancel, `new_file` leaves the
buffer, the file label, the Save menu item's enabled state and
`isModified` unchanged. -/
theorem C7_new_cancel_noop (s : St) (choice : ConfirmChoice)
    (sp : Option String)
    (h : (test_save_requirement s choice sp).2 = some ConfirmChoice.cancel) :
    (new_file s choice sp).buffer = s.buffer ∧
    (new_file s choice sp).fName = s.fName ∧
    (new_file s choice sp).saveEnabled = s.saveEnabled ∧
    (new_file s choice sp).isModified = s.isModified := by
  unfold new_file
  simp only []
  rw [if_pos h, tsr_state_of_cancel s choice sp h]
  exact ⟨rfl, rfl, rfl, rfl⟩

/-- C7 witness: Cancel aborts `new_file` on the dirty state `c7St`. -/
theorem C7_new_cancel_noop_witness :
    (new_file c7St ConfirmChoice.cancel none).buffer = c7St.buffer ∧
    (new_file c7St ConfirmChoice.cancel none).fName = c7St.fName ∧
    (new_file c7St ConfirmChoice.cancel none).saveEnabled =
      c7St.saveEnabled ∧
    (new_file c7St ConfirmChoice.cancel none).isModified =
      c7St.isModified :=
  C7_new_cancel_noop c7St ConfirmChoice.cancel none (by decide)

/-- C8: a cancelled save-as dialog leaves the whole state unchanged; a
chosen path receives the buffer, relabels the file name, enables Save
and clears `isModified`. -/
theorem C8_save_as_dialog (s : St) (p : String) :
    save_as_file s none = s ∧
    fsLookup (save_as_file s (some p)).fs p = some s.buffer ∧
    (save_as_file s (some p)).fName = "File: " ++ p ∧
    (save_as_file s (some p)).saveEnabled = true ∧
    (save_as_file s (some p)).isModified = false :=
  ⟨rfl, fsLookup_fsWrite s.fs p s.buffer, rfl, rfl, rfl⟩

/-- C9: the two application-launch commands always pass the fixed
argument lists ["calc"] and ["cmd"], independent of the state. -/
theorem C9_launch_fixed (s t : St) :
    launch_calc s = ["calc"] ∧ launch_CMD s = ["cmd"] ∧
    launch_calc s = launch_calc t ∧ launch_CMD s = launch_CMD t :=
  ⟨rfl, rfl, rfl, rfl⟩

/-- C10: the idle callback only latches the dirty flag (it never turns
`isModified` from `true` to `false`), while a successful save-as, a save
to a named file, and a non-cancelled new all reset it to `false`. -/
theorem C10_latching (s : St) (p : String) (choice : ConfirmChoice)
    (sp : Option String) :
    (s.isModified = true → (update_character_count s).isModified = true) ∧
    (save_as_file s (some p)).isModified = false ∧
    (s.fName ≠ "File: Not saved" → (save_file s sp).isModified = false) ∧
    ((test_save_requirement s choice sp).2 ≠ some ConfirmChoice.cancel →
      (new_file s choice sp).isModified = false) := by
  refine ⟨?_, rfl, ?_, ?_⟩
  · intro h
    unfold update_character_count
    simp only []
    split
    · rfl
    · exact h
  · intro h
    unfold save_file
    simp only []
    rw [if_neg h]
  · intro h
    unfold new_file
    simp only []
    rw [if_neg h]

/-- C10 witness: on `c10St` the buffer matches the file on disk yet the
idle callback keeps `isModified` true; save and new reset it. -/
theorem C10_latching_witness :
    (update_character_count c10St).isModified = true ∧
    (save_file c10St none).isModified = false ∧
    (new_file c10St ConfirmChoice.yes none).isModified = false := by
  obtain ⟨h1, h2, h3, h4⟩ := C10_latching c10St "p.txt" ConfirmChoice.yes none
  exact ⟨h1 (by decide), h3 (by decide), h4 (by decide)⟩
end MayaNotepad
